import Mathlib

/-!
Shallow embedding of the admission-control / rate-limiting subsystem of
`src/shared/optimization/performanceOptimizer.ts`, together with proofs of
the testable properties of its specification.

Modelling conventions:
* JavaScript `number` arithmetic is modelled exactly over `ℚ` (token levels,
  latencies) and over `ℕ`/`ℤ` where the code only ever handles integers
  (window counters, timestamps, status codes).
* The Redis store is modelled per limiter: the fixed-window limiter sees a
  map from window index to counter value (`incrby`/`decrby` on a missing key
  start from 0, so counters live in `ℤ`); the token bucket sees an optional
  hash `(tokens, last_refill)`; the sliding-window limiter sees the list of
  timestamps currently in the per-key sorted set (each `zadd` member carries
  a fresh random nonce, so members are never deduplicated — a list is
  faithful).
* A fallible store round trip (`incrby`, `eval`, `pipeline.exec`) is passed
  to the limiter as an `Except Unit α`; the `.error` case is the code's
  `catch` branch.
* The Lua script run by `DistributedThrottler.isAllowed` executes atomically
  inside Redis, so concurrent calls are modelled as an arbitrary sequential
  interleaving of the atomic script step.
-/

/-- Configuration of `RateLimiter` (interface `RateLimitConfig`), restricted
to the fields the limiting algorithms read.  `windowMs` and `maxRequests`
are the window length W and ceiling C. -/
structure RateLimitConfig where
  windowMs : ℕ
  maxRequests : ℕ
  keyPrefix : String
  skipSuccessfulRequests : Bool
  skipFailedRequests : Bool
deriving Repr, DecidableEq

/-- Result record of `RateLimiter.isAllowed`. -/
structure FixedWindowResult where
  allowed : Bool
  remaining : ℤ
  resetAt : ℤ
  retryAfter : Option ℤ
deriving Repr, DecidableEq

/-- The per-key fixed-window counters: window index ↦ counter value.
`incrby`/`decrby` on an absent key treat it as 0. -/
def WindowStore : Type := ℕ → ℤ

/-- The empty store: no window counter has ever been written. -/
def WindowStore.empty : WindowStore := fun _ => 0

namespace RateLimiter

/-- Success path of `RateLimiter.isAllowed` (performanceOptimizer.ts
lines 551–580): `window = floor(now / windowMs)`, `count = incrby(weight)`,
`allowed = count <= maxRequests`, `remaining = max(0, maxRequests - count)`,
`resetAt = (window + 1) * windowMs`, and `retryAfter = resetAt - now` only on
rejection.  Returns the result together with the updated store. -/
def isAllowed (cfg : RateLimitConfig) (store : WindowStore) (now : ℕ)
    (weight : ℤ) : FixedWindowResult × WindowStore :=
  let window : ℕ := now / cfg.windowMs
  let count : ℤ := store window + weight
  let store' : WindowStore := fun w => if w = window then count else store w
  let allowed : Bool := count ≤ (cfg.maxRequests : ℤ)
  let remaining : ℤ := max 0 ((cfg.maxRequests : ℤ) - count)
  let resetAt : ℤ := ((window + 1 : ℕ) : ℤ) * (cfg.windowMs : ℤ)
  if allowed then
    (⟨true, remaining, resetAt, none⟩, store')
  else
    (⟨false, remaining, resetAt, some (resetAt - (now : ℤ))⟩, store')

/-- `RateLimiter.isAllowed` including its `catch` branch (lines 581–589):
the store round trip either yields the post-increment counter value or
fails, and on failure the limiter fails open with `allowed = true`,
`remaining = maxRequests`, `resetAt = now + windowMs`. -/
def isAllowedWithStore (cfg : RateLimitConfig) (now : ℕ)
    (incrResult : Except Unit ℤ) : FixedWindowResult :=
  match incrResult with
  | .ok count =>
      let window : ℕ := now / cfg.windowMs
      let allowed : Bool := count ≤ (cfg.maxRequests : ℤ)
      let remaining : ℤ := max 0 ((cfg.maxRequests : ℤ) - count)
      let resetAt : ℤ := ((window + 1 : ℕ) : ℤ) * (cfg.windowMs : ℤ)
      if allowed then ⟨true, remaining, resetAt, none⟩
      else ⟨false, remaining, resetAt, some (resetAt - (now : ℤ))⟩
  | .error _ =>
      ⟨true, (cfg.maxRequests : ℤ), ((now : ℤ) + (cfg.windowMs : ℤ)), none⟩

/-- Runs a sequence of `isAllowed` calls, threading the store.  Each call is
a pair `(now, weight)`. -/
def run (cfg : RateLimitConfig) (store : WindowStore) :
    List (ℕ × ℤ) → List FixedWindowResult × WindowStore
  | [] => ([], store)
  | c :: cs =>
      let (r, store') := isAllowed cfg store c.1 c.2
      let (rs, store'') := run cfg store' cs
      (r :: rs, store'')

end RateLimiter

/-- Cumulative counter values: `cumCounts c0 [w1, …, wn] = [c0+w1, c0+w1+w2, …]`. -/
def cumCounts (c0 : ℤ) : List ℤ → List ℤ
  | [] => []
  | w :: ws => (c0 + w) :: cumCounts (c0 + w) ws

theorem cumCounts_nonneg (c0 : ℤ) (ws : List ℤ) (hc : 0 ≤ c0)
    (hw : ∀ w ∈ ws, 0 ≤ w) : ∀ c ∈ cumCounts c0 ws, 0 ≤ c := by
  induction ws generalizing c0 with
  | nil => simp [cumCounts]
  | cons w ws ih =>
      intro c hc'
      simp only [cumCounts, List.mem_cons] at hc'
      have hw0 : 0 ≤ w := hw w (List.mem_cons_self _ _)
      rcases hc' with h | h
      · omega
      · exact ih (c0 + w) (by omega) (fun x hx => hw x (List.mem_cons_of_mem _ hx)) c h

theorem cumCounts_le (c0 : ℤ) (ws : List ℤ) (B : ℤ)
    (hw : ∀ w ∈ ws, 0 ≤ w) (hsum : c0 + ws.sum ≤ B) :
    ∀ c ∈ cumCounts c0 ws, c ≤ B := by
  induction ws generalizing c0 with
  | nil => simp [cumCounts]
  | cons w ws ih =>
      intro c hc'
      simp only [cumCounts, List.mem_cons] at hc'
      simp only [List.sum_cons] at hsum
      have hws : ∀ x ∈ ws, 0 ≤ x := fun x hx => hw x (List.mem_cons_of_mem _ hx)
      have hsum' : (ws.map id).sum = ws.sum := by simp
      rcases hc' with h | h
      · have : 0 ≤ ws.sum := List.sum_nonneg (by simpa using hws)
        omega
      · exact ih (c0 + w) hws (by omega) c h

/-- Sequential fixed-window behaviour, generalized over the starting counter:
if every call lands in window `k`, weights are nonnegative, and the starting
counter `c0` plus the total weight stays within the ceiling, then every call
is allowed with `remaining = max 0 (C - cumulative count)` and
`resetAt = (k+1)·W`, and the final counter is `c0` plus the total weight. -/
theorem RateLimiter.run_allowed (cfg : RateLimitConfig) (k : ℕ)
    (calls : List (ℕ × ℤ)) (store : WindowStore) (c0 : ℤ)
    (hstore : store k = c0) (hc0 : 0 ≤ c0)
    (hwin : ∀ c ∈ calls, c.1 / cfg.windowMs = k)
    (hw : ∀ c ∈ calls, 0 ≤ c.2)
    (hsum : c0 + (calls.map (·.2)).sum ≤ (cfg.maxRequests : ℤ)) :
    (RateLimiter.run cfg store calls).1 =
      (cumCounts c0 (calls.map (·.2))).map
        (fun c => ⟨true, max 0 ((cfg.maxRequests : ℤ) - c),
          ((k + 1 : ℕ) : ℤ) * (cfg.windowMs : ℤ), none⟩) ∧
    (RateLimiter.run cfg store calls).2 k = c0 + (calls.map (·.2)).sum := by
  induction calls generalizing store c0 with
  | nil => simp [RateLimiter.run, cumCounts, hstore]
  | cons c cs ih =>
      obtain ⟨t, w⟩ := c
      have hk : t / cfg.windowMs = k := hwin (t, w) (List.mem_cons_self _ _)
      have hw0 : 0 ≤ w := hw (t, w) (List.mem_cons_self _ _)
      have hcs_sum : 0 ≤ (cs.map (·.2)).sum := by
        apply List.sum_nonneg
        intro x hx
        simp only [List.mem_map] at hx
        obtain ⟨p, hp, rfl⟩ := hx
        exact hw p (List.mem_cons_of_mem _ hp)
      have hsum' : (c0 + w) + (cs.map (·.2)).sum ≤ (cfg.maxRequests : ℤ) := by
        simp only [List.map_cons, List.sum_cons] at hsum
        omega
      have hcount : c0 + w ≤ (cfg.maxRequests : ℤ) := by omega
      have hstep : RateLimiter.isAllowed cfg store t w =
          (⟨true, max 0 ((cfg.maxRequests : ℤ) - (c0 + w)),
            ((k + 1 : ℕ) : ℤ) * (cfg.windowMs : ℤ), none⟩,
           fun i => if i = k then c0 + w else store i) := by
        simp only [RateLimiter.isAllowed, hk, hstore]
        rw [if_pos]
        simp [decide_eq_true_eq, hcount]
      have ih' := ih (fun i => if i = k then c0 + w else store i) (c0 + w)
        (by simp) (by omega)
        (fun x hx => hwin x (List.mem_cons_of_mem _ hx))
        (fun x hx => hw x (List.mem_cons_of_mem _ hx)) hsum'
      constructor
      · simp only [RateLimiter.run, hstep, List.map_cons, cumCounts, List.map]
        exact congrArg _ ih'.1
      · simp only [RateLimiter.run, hstep, List.map_cons, List.sum_cons]
        rw [show c0 + (w + (cs.map (·.2)).sum) = (c0 + w) + (cs.map (·.2)).sum by ring]
        exact ih'.2

/-- C2.  Within one window `k`, sequential calls with nonnegative weights
summing to at most the ceiling are all allowed, with
`remaining = max 0 (C - cumulative count)` and `resetAt = (k+1)·W`; a
further call pushing the count above the ceiling is rejected with
`retryAfter = resetAt - now` and `0 < retryAfter ≤ W`. -/
theorem fixedWindow_sequential_fill_then_reject (cfg : RateLimitConfig)
    (k : ℕ) (calls : List (ℕ × ℤ)) (t' : ℕ) (w' : ℤ)
    (hW : 0 < cfg.windowMs)
    (hwin : ∀ c ∈ calls, c.1 / cfg.windowMs = k)
    (hw : ∀ c ∈ calls, 0 ≤ c.2)
    (hsum : (calls.map (·.2)).sum ≤ (cfg.maxRequests : ℤ))
    (ht' : t' / cfg.windowMs = k)
    (hover : (cfg.maxRequests : ℤ) < (calls.map (·.2)).sum + w') :
    (RateLimiter.run cfg WindowStore.empty calls).1 =
      (cumCounts 0 (calls.map (·.2))).map
        (fun c => ⟨true, max 0 ((cfg.maxRequests : ℤ) - c),
          ((k + 1 : ℕ) : ℤ) * (cfg.windowMs : ℤ), none⟩) ∧
    (RateLimiter.isAllowed cfg (RateLimiter.run cfg WindowStore.empty calls).2
        t' w').1 =
      ⟨false, 0, ((k + 1 : ℕ) : ℤ) * (cfg.windowMs : ℤ),
        some (((k + 1 : ℕ) : ℤ) * (cfg.windowMs : ℤ) - (t' : ℤ))⟩ ∧
    0 < ((k + 1 : ℕ) : ℤ) * (cfg.windowMs : ℤ) - (t' : ℤ) ∧
    ((k + 1 : ℕ) : ℤ) * (cfg.windowMs : ℤ) - (t' : ℤ) ≤ (cfg.windowMs : ℤ) := by
  have hrun := RateLimiter.run_allowed cfg k calls WindowStore.empty 0 rfl
    le_rfl hwin hw (by simpa using hsum)
  have hcount : (RateLimiter.run cfg WindowStore.empty calls).2 k =
      (calls.map (·.2)).sum := by simpa using hrun.2
  have hnotallowed : ¬ ((calls.map (·.2)).sum + w' ≤ (cfg.maxRequests : ℤ)) := by
    omega
  have hmod := Nat.div_add_mod t' cfg.windowMs
  rw [ht'] at hmod
  have hmodZ : (cfg.windowMs : ℤ) * (k : ℤ) + ((t' % cfg.windowMs : ℕ) : ℤ) = (t' : ℤ) := by
    exact_mod_cast hmod
  have hmodlt : ((t' % cfg.windowMs : ℕ) : ℤ) < (cfg.windowMs : ℤ) := by
    exact_mod_cast Nat.mod_lt _ hW
  have hmodnn : (0 : ℤ) ≤ ((t' % cfg.windowMs : ℕ) : ℤ) := Int.natCast_nonneg _
  refine ⟨hrun.1, ?_, ?_, ?_⟩
  · simp only [RateLimiter.isAllowed, ht', hcount]
    rw [if_neg (by simpa using hnotallowed)]
    have hrem : max 0 ((cfg.maxRequests : ℤ) - ((calls.map (·.2)).sum + w')) = 0 :=
      max_eq_left (by omega)
    simp [hrem]
  · push_cast
    linarith
  · push_cast
    linarith

/-- Witness for C2 at the spec's concrete scenario: policy
`{windowMs: 60000, maxRequests: 5}`, five weight-1 calls inside window 0,
then a sixth call at t = 50000. -/
theorem fixedWindow_sequential_fill_then_reject_witness :
    (RateLimiter.run ⟨60000, 5, "rate-limit", false, false⟩ WindowStore.empty
        [(0, 1), (1000, 1), (2000, 1), (3000, 1), (4000, 1)]).1 =
      (cumCounts 0 ([(0, (1:ℤ)), (1000, 1), (2000, 1), (3000, 1), (4000, 1)].map (·.2))).map
        (fun c => ⟨true, max 0 ((5 : ℤ) - c), ((0 + 1 : ℕ) : ℤ) * (60000 : ℤ), none⟩) ∧
    (RateLimiter.isAllowed ⟨60000, 5, "rate-limit", false, false⟩
        (RateLimiter.run ⟨60000, 5, "rate-limit", false, false⟩ WindowStore.empty
          [(0, 1), (1000, 1), (2000, 1), (3000, 1), (4000, 1)]).2 50000 1).1 =
      ⟨false, 0, ((0 + 1 : ℕ) : ℤ) * (60000 : ℤ),
        some (((0 + 1 : ℕ) : ℤ) * (60000 : ℤ) - (50000 : ℤ))⟩ ∧
    0 < ((0 + 1 : ℕ) : ℤ) * (60000 : ℤ) - ((50000 : ℕ) : ℤ) ∧
    ((0 + 1 : ℕ) : ℤ) * (60000 : ℤ) - ((50000 : ℕ) : ℤ) ≤ ((60000 : ℕ) : ℤ) :=
  fixedWindow_sequential_fill_then_reject ⟨60000, 5, "rate-limit", false, false⟩
    0 [(0, 1), (1000, 1), (2000, 1), (3000, 1), (4000, 1)] 50000 1
    (by decide) (by decide) (by decide) (by decide) (by decide) (by decide)

/-- Configuration of `DistributedThrottler` (interface `ThrottleConfig`):
burst capacity B, sustained limit, and the window over which the sustained
limit applies. -/
structure ThrottleConfig where
  burstLimit : ℚ
  sustainedLimit : ℚ
  windowMs : ℚ
  keyPrefix : String
deriving Repr, DecidableEq

/-- The Redis hash `(tokens, last_refill)` held per throttled key. -/
structure BucketState where
  tokens : ℚ
  lastRefill : ℤ
deriving Repr, DecidableEq

/-- Result record of `DistributedThrottler.isAllowed`. -/
structure ThrottleResult where
  allowed : Bool
  tokensRemaining : ℚ
  retryAfter : Option ℚ
deriving Repr, DecidableEq

namespace DistributedThrottler

/-- The refill rate the code derives from the config:
`sustained_limit / (window_ms / 1000)` tokens per second. -/
def refillRate (cfg : ThrottleConfig) : ℚ :=
  cfg.sustainedLimit / (cfg.windowMs / 1000)

/-- The Lua script evaluated atomically by `DistributedThrottler.isAllowed`
(performanceOptimizer.ts lines 718–745).  `HMGET` on an absent key defaults
tokens to `burst_limit` and `last_refill` to `now`; the script refills
`new_tokens = min(burst_limit, tokens + (time_passed / 1000) * refill_rate)`,
then either consumes `cost` (allowed) or persists the refilled value
(rejected), always writing `last_refill = now`.  Returns the Lua script's
`{allowed, new_tokens}` reply together with the state written back. -/
def luaScript (cfg : ThrottleConfig) (state : Option BucketState)
    (cost : ℚ) (now : ℤ) : (Bool × ℚ) × BucketState :=
  let tokens : ℚ := (state.map (·.tokens)).getD cfg.burstLimit
  let lastRefill : ℤ := (state.map (·.lastRefill)).getD now
  let timePassed : ℚ := ((now - lastRefill : ℤ) : ℚ)
  let newTokens : ℚ := min cfg.burstLimit (tokens + (timePassed / 1000) * refillRate cfg)
  if cost ≤ newTokens then
    ((true, newTokens - cost), ⟨newTokens - cost, now⟩)
  else
    ((false, newTokens), ⟨newTokens, now⟩)

/-- `DistributedThrottler.isAllowed` (lines 708–783): the atomic `eval`
round trip either yields the script's `[allowed, tokensRemaining]` reply or
fails; on rejection the caller computes
`retryAfter = ((cost - tokensRemaining) / refillRate) * 1000`; on failure
the throttler fails open with `allowed = true`,
`tokensRemaining = burstLimit`. -/
def isAllowed (cfg : ThrottleConfig) (cost : ℚ)
    (evalResult : Except Unit (Bool × ℚ)) : ThrottleResult :=
  match evalResult with
  | .ok (allowed, tokensRemaining) =>
      if allowed then ⟨true, tokensRemaining, none⟩
      else ⟨false, tokensRemaining,
        some (((cost - tokensRemaining) / refillRate cfg) * 1000)⟩
  | .error _ => ⟨true, cfg.burstLimit, none⟩

/-- `M` checks of cost 1 against one key, all carrying the same `now`
timestamp (concurrent calls serialized by the atomicity of the Lua script):
each step runs the script on the state left by the previous one. -/
def runSameInstant (cfg : ThrottleConfig) (now : ℤ) :
    ℕ → Option BucketState → List Bool
  | 0, _ => []
  | m + 1, st =>
      let ((a, _), st') := luaScript cfg st 1 now
      a :: runSameInstant cfg now m (some st')

end DistributedThrottler

/-- The in-process `TokenBucket` (performanceOptimizer.ts lines 659–696):
`refill` then consume if enough tokens.  Returned pair: whether the
consumption succeeded, and the bucket state afterwards. -/
def TokenBucket.consume (capacity refillRate tokens : ℚ) (lastRefill now : ℤ)
    (cost : ℚ) : Bool × ℚ :=
  let timePassed : ℚ := ((now - lastRefill : ℤ) : ℚ)
  let tokensToAdd : ℚ := (timePassed / 1000) * refillRate
  let refilled : ℚ := min capacity (tokens + tokensToAdd)
  if cost ≤ refilled then (true, refilled - cost) else (false, refilled)

/-- C3.  A single token-bucket check against stored state `(t, lr)`: with
`refilled = min B (t + elapsed·R)` (R the derived per-second rate), the
script either consumes `cost` from `refilled` and persists the difference
(allowed), or persists `refilled` untouched by `cost` and the caller reports
`retryAfter = (cost - refilled) / R · 1000` ms (rejected); `last_refill` is
set to `now` in both branches. -/
theorem tokenBucket_single_check (cfg : ThrottleConfig) (t : ℚ) (lr now : ℤ)
    (cost : ℚ) :
    (cost ≤ min cfg.burstLimit
        (t + (((now - lr : ℤ) : ℚ) / 1000) * DistributedThrottler.refillRate cfg) →
      DistributedThrottler.luaScript cfg (some ⟨t, lr⟩) cost now =
        ((true, min cfg.burstLimit
            (t + (((now - lr : ℤ) : ℚ) / 1000) * DistributedThrottler.refillRate cfg) - cost),
          ⟨min cfg.burstLimit
            (t + (((now - lr : ℤ) : ℚ) / 1000) * DistributedThrottler.refillRate cfg) - cost, now⟩) ∧
      DistributedThrottler.isAllowed cfg cost
          (.ok (DistributedThrottler.luaScript cfg (some ⟨t, lr⟩) cost now).1) =
        ⟨true, min cfg.burstLimit
            (t + (((now - lr : ℤ) : ℚ) / 1000) * DistributedThrottler.refillRate cfg) - cost, none⟩) ∧
    (min cfg.burstLimit
        (t + (((now - lr : ℤ) : ℚ) / 1000) * DistributedThrottler.refillRate cfg) < cost →
      DistributedThrottler.luaScript cfg (some ⟨t, lr⟩) cost now =
        ((false, min cfg.burstLimit
            (t + (((now - lr : ℤ) : ℚ) / 1000) * DistributedThrottler.refillRate cfg)),
          ⟨min cfg.burstLimit
            (t + (((now - lr : ℤ) : ℚ) / 1000) * DistributedThrottler.refillRate cfg), now⟩) ∧
      DistributedThrottler.isAllowed cfg cost
          (.ok (DistributedThrottler.luaScript cfg (some ⟨t, lr⟩) cost now).1) =
        ⟨false, min cfg.burstLimit
            (t + (((now - lr : ℤ) : ℚ) / 1000) * DistributedThrottler.refillRate cfg),
          some ((cost - min cfg.burstLimit
            (t + (((now - lr : ℤ) : ℚ) / 1000) * DistributedThrottler.refillRate cfg))
              / DistributedThrottler.refillRate cfg * 1000)⟩) := by
  constructor
  · intro h
    have hlua : DistributedThrottler.luaScript cfg (some ⟨t, lr⟩) cost now =
        ((true, min cfg.burstLimit
            (t + (((now - lr : ℤ) : ℚ) / 1000) * DistributedThrottler.refillRate cfg) - cost),
          ⟨min cfg.burstLimit
            (t + (((now - lr : ℤ) : ℚ) / 1000) * DistributedThrottler.refillRate cfg) - cost, now⟩) := by
      simp only [DistributedThrottler.luaScript, Option.map_some', Option.getD_some]
      rw [if_pos h]
    refine ⟨hlua, ?_⟩
    rw [hlua]
    simp [DistributedThrottler.isAllowed]
  · intro h
    have hlua : DistributedThrottler.luaScript cfg (some ⟨t, lr⟩) cost now =
        ((false, min cfg.burstLimit
            (t + (((now - lr : ℤ) : ℚ) / 1000) * DistributedThrottler.refillRate cfg)),
          ⟨min cfg.burstLimit
            (t + (((now - lr : ℤ) : ℚ) / 1000) * DistributedThrottler.refillRate cfg), now⟩) := by
      simp only [DistributedThrottler.luaScript, Option.map_some', Option.getD_some]
      rw [if_neg (not_le.mpr h)]
    refine ⟨hlua, ?_⟩
    rw [hlua]
    simp [DistributedThrottler.isAllowed]

/-- Witness for C3 at the spec's refill example: burst 10, sustained 10 per
60 s window.  A bucket drained to 0 at time 0 holds 5 tokens after 30 s, so
a cost-1 check succeeds and persists 4; the same bucket re-checked
immediately at time 0 is rejected with `retryAfter = 6000` ms. -/
theorem tokenBucket_single_check_witness :
    DistributedThrottler.isAllowed ⟨10, 10, 60000, "throttle"⟩ 1
        (.ok (DistributedThrottler.luaScript ⟨10, 10, 60000, "throttle"⟩
          (some ⟨0, 0⟩) 1 30000).1) =
      ⟨true, 4, none⟩ ∧
    DistributedThrottler.isAllowed ⟨10, 10, 60000, "throttle"⟩ 1
        (.ok (DistributedThrottler.luaScript ⟨10, 10, 60000, "throttle"⟩
          (some ⟨0, 0⟩) 1 0).1) =
      ⟨false, 0, some 6000⟩ := by
  constructor
  · have h := (tokenBucket_single_check ⟨10, 10, 60000, "throttle"⟩ 0 0 30000 1).1
      (by norm_num [DistributedThrottler.refillRate])
    rw [h.2]
    norm_num [DistributedThrottler.refillRate]
  · have h := (tokenBucket_single_check ⟨10, 10, 60000, "throttle"⟩ 0 0 0 1).2
      (by norm_num [DistributedThrottler.refillRate])
    rw [h.2]
    norm_num [DistributedThrottler.refillRate]

theorem DistributedThrottler.luaScript_none (cfg : ThrottleConfig) (cost : ℚ)
    (now : ℤ) :
    DistributedThrottler.luaScript cfg none cost now =
      DistributedThrottler.luaScript cfg (some ⟨cfg.burstLimit, now⟩) cost now := rfl

theorem DistributedThrottler.runSameInstant_none (cfg : ThrottleConfig)
    (now : ℤ) (m : ℕ) :
    DistributedThrottler.runSameInstant cfg now m none =
      DistributedThrottler.runSameInstant cfg now m (some ⟨cfg.burstLimit, now⟩) := by
  cases m with
  | zero => rfl
  | succ m =>
      simp only [DistributedThrottler.runSameInstant,
        DistributedThrottler.luaScript_none]

/-- At a fixed instant there is no refill, so from a bucket holding `j ≤ b`
whole tokens, a run of cost-1 checks produces `min m j` admissions followed
by rejections. -/
theorem DistributedThrottler.runSameInstant_eq (cfg : ThrottleConfig)
    (now : ℤ) (b : ℕ) (hb : cfg.burstLimit = (b : ℚ)) :
    ∀ (m j : ℕ), j ≤ b →
      DistributedThrottler.runSameInstant cfg now m (some ⟨(j : ℚ), now⟩) =
        List.replicate (min m j) true ++ List.replicate (m - j) false := by
  intro m
  induction m with
  | zero => intro j _; simp [DistributedThrottler.runSameInstant]
  | succ m ih =>
      intro j hj
      have hnew : DistributedThrottler.luaScript cfg (some ⟨(j : ℚ), now⟩) 1 now =
          if (1 : ℚ) ≤ (j : ℚ) then (((true, (j : ℚ) - 1)), ⟨(j : ℚ) - 1, now⟩)
          else ((false, (j : ℚ)), ⟨(j : ℚ), now⟩) := by
        have hmin : min cfg.burstLimit
            ((j : ℚ) + (((now - now : ℤ) : ℚ) / 1000) * DistributedThrottler.refillRate cfg)
            = (j : ℚ) := by
          rw [hb]
          push_cast
          rw [sub_self]
          norm_num
          exact_mod_cast hj
        simp only [DistributedThrottler.luaScript, Option.map_some', Option.getD_some, hmin]
      by_cases hj1 : 1 ≤ j
      · have hcast : (1 : ℚ) ≤ (j : ℚ) := by exact_mod_cast hj1
        have hpred : (j : ℚ) - 1 = ((j - 1 : ℕ) : ℚ) := by
          push_cast [hj1]
          ring
        simp only [DistributedThrottler.runSameInstant, hnew, if_pos hcast, hpred]
        rw [ih (j - 1) (by omega)]
        have hm1 : min (m + 1) j = min m (j - 1) + 1 := by omega
        have hm2 : m + 1 - j = m - (j - 1) := by omega
        rw [hm1, hm2, List.replicate_succ]
        rfl
      · have hj0 : j = 0 := by omega
        subst hj0
        have hcast : ¬ ((1 : ℚ) ≤ ((0 : ℕ) : ℚ)) := by norm_num
        simp only [DistributedThrottler.runSameInstant, hnew, if_neg hcast]
        rw [ih 0 (by omega)]
        simp [List.replicate_succ]

/-- C1.  Concurrent token-bucket atomicity: the Lua script runs atomically
inside the store, so `M` concurrent `check(k, 1)` calls execute as `M`
sequential script steps.  Against a fresh bucket of integer capacity
`b < M`, the run admits exactly `b` calls and rejects the remaining
`M - b`. -/
theorem tokenBucket_concurrent_exactly_burst_admitted (cfg : ThrottleConfig)
    (now : ℤ) (b m : ℕ) (hb : cfg.burstLimit = (b : ℚ)) (hm : b < m) :
    (DistributedThrottler.runSameInstant cfg now m none).count true = b ∧
    (DistributedThrottler.runSameInstant cfg now m none).count false = m - b := by
  have hrun : DistributedThrottler.runSameInstant cfg now m none =
      List.replicate (min m b) true ++ List.replicate (m - b) false := by
    rw [DistributedThrottler.runSameInstant_none, hb]
    exact DistributedThrottler.runSameInstant_eq cfg now b hb m b le_rfl
  have hmin : min m b = b := by omega
  rw [hrun, hmin]
  constructor
  · simp [List.count_append, List.count_replicate]
  · simp [List.count_append, List.count_replicate]

/-- Witness for C1: burst capacity 2, five concurrent cost-1 checks at one
instant — exactly 2 admitted, 3 rejected. -/
theorem tokenBucket_concurrent_exactly_burst_admitted_witness :
    (DistributedThrottler.runSameInstant ⟨2, 10, 60000, "throttle"⟩ 0 5 none).count true = 2 ∧
    (DistributedThrottler.runSameInstant ⟨2, 10, 60000, "throttle"⟩ 0 5 none).count false = 5 - 2 :=
  tokenBucket_concurrent_exactly_burst_admitted ⟨2, 10, 60000, "throttle"⟩ 0 2 5
    (by norm_num) (by norm_num)

/-- Counterexample for C7: the Lua script contains no lower clamp.  With
burst 10 and rate 10 tokens/s, a bucket drained to 0 at time 1000 and
checked at time 0 (elapsed −1000 ms, clock skew) persists a token level of
−10, not 0. -/
theorem tokenBucket_negative_level_persisted :
    (DistributedThrottler.luaScript ⟨10, 10, 1000, "throttle"⟩
        (some ⟨0, 1000⟩) 1 0).2 = ⟨-10, 0⟩ ∧
    ((DistributedThrottler.luaScript ⟨10, 10, 1000, "throttle"⟩
        (some ⟨0, 1000⟩) 1 0).2.tokens < 0) := by
  constructor
  · norm_num [DistributedThrottler.luaScript, DistributedThrottler.refillRate]
  · norm_num [DistributedThrottler.luaScript, DistributedThrottler.refillRate]

theorem DistributedThrottler.step_bounds (cfg : ThrottleConfig)
    (s : BucketState) (cost : ℚ) (now : ℤ)
    (hB : 0 ≤ cfg.burstLimit) (hs : 0 ≤ cfg.sustainedLimit)
    (hw : 0 ≤ cfg.windowMs) (hc : 0 ≤ cost)
    (ht : 0 ≤ s.tokens) (hlr : s.lastRefill ≤ now) :
    0 ≤ (DistributedThrottler.luaScript cfg (some s) cost now).2.tokens ∧
    (DistributedThrottler.luaScript cfg (some s) cost now).2.tokens ≤ cfg.burstLimit := by
  have hrate : 0 ≤ DistributedThrottler.refillRate cfg :=
    div_nonneg hs (div_nonneg hw (by norm_num))
  have htp : (0 : ℚ) ≤ ((now - s.lastRefill : ℤ) : ℚ) := by
    have : (0 : ℤ) ≤ now - s.lastRefill := by omega
    exact_mod_cast this
  have hadd : 0 ≤ s.tokens + (((now - s.lastRefill : ℤ) : ℚ) / 1000) *
      DistributedThrottler.refillRate cfg :=
    add_nonneg ht (mul_nonneg (div_nonneg htp (by norm_num)) hrate)
  have hn0 : 0 ≤ min cfg.burstLimit
      (s.tokens + (((now - s.lastRefill : ℤ) : ℚ) / 1000) *
        DistributedThrottler.refillRate cfg) := le_min hB hadd
  have hnB : min cfg.burstLimit
      (s.tokens + (((now - s.lastRefill : ℤ) : ℚ) / 1000) *
        DistributedThrottler.refillRate cfg) ≤ cfg.burstLimit := min_le_left _ _
  simp only [DistributedThrottler.luaScript, Option.map_some', Option.getD_some]
  by_cases hcn : cost ≤ min cfg.burstLimit
      (s.tokens + (((now - s.lastRefill : ℤ) : ℚ) / 1000) *
        DistributedThrottler.refillRate cfg)
  · rw [if_pos hcn]
    exact ⟨by linarith, by linarith⟩
  · rw [if_neg hcn]
    exact ⟨hn0, hnB⟩

/-- C7 as amended.  Each atomic check preserves the token-level bounds:
starting from an absent key, or from any persisted state with a
nonnegative level written no later than `now` (no clock skew), the level
written back stays within `[0, burst_capacity]`; no clamping of negative
levels exists — the lower bound relies on elapsed time being nonnegative. -/
theorem tokenBucket_level_bounds (cfg : ThrottleConfig)
    (st : Option BucketState) (cost : ℚ) (now : ℤ)
    (hB : 0 ≤ cfg.burstLimit) (hs : 0 ≤ cfg.sustainedLimit)
    (hw : 0 ≤ cfg.windowMs) (hc : 0 ≤ cost)
    (hst : ∀ s, st = some s → 0 ≤ s.tokens ∧ s.lastRefill ≤ now) :
    0 ≤ (DistributedThrottler.luaScript cfg st cost now).2.tokens ∧
    (DistributedThrottler.luaScript cfg st cost now).2.tokens ≤ cfg.burstLimit := by
  cases st with
  | none =>
      rw [DistributedThrottler.luaScript_none]
      exact DistributedThrottler.step_bounds cfg ⟨cfg.burstLimit, now⟩ cost now
        hB hs hw hc hB le_rfl
  | some s =>
      obtain ⟨ht, hlr⟩ := hst s rfl
      exact DistributedThrottler.step_bounds cfg s cost now hB hs hw hc ht hlr

/-- Witness for C7 (amended): a concrete in-range step — burst 10, rate
10/60 s, state (tokens 3, refilled at 0), cost 5 at time 6000 — stays in
`[0, 10]`. -/
theorem tokenBucket_level_bounds_witness :
    0 ≤ (DistributedThrottler.luaScript ⟨10, 10, 60000, "throttle"⟩
        (some ⟨3, 0⟩) 5 6000).2.tokens ∧
    (DistributedThrottler.luaScript ⟨10, 10, 60000, "throttle"⟩
        (some ⟨3, 0⟩) 5 6000).2.tokens ≤ (10 : ℚ) :=
  tokenBucket_level_bounds ⟨10, 10, 60000, "throttle"⟩ (some ⟨3, 0⟩) 5 6000
    (by norm_num) (by norm_num) (by norm_num) (by norm_num)
    (by intro s hs; cases hs; exact ⟨by norm_num, by norm_num⟩)

namespace SlidingWindowRateLimiter

/-- The atomic pipeline of `SlidingWindowRateLimiter.isAllowed`
(performanceOptimizer.ts lines 933–954) acting on the per-key sorted set,
modelled as the list of member timestamps:
`zremrangebyscore(key, -inf, windowStart)` removes every entry with
timestamp ≤ `windowStart` (inclusive range), `zadd` inserts the current
request's uniquely-tagged entry at `now`, and
`zcount(key, windowStart, now)` counts entries with
`windowStart ≤ t ≤ now` (inclusive).  Returns `count <= maxRequests`
together with the surviving entries. -/
def isAllowedCore (cfg : RateLimitConfig) (entries : List ℤ) (now : ℤ) :
    Bool × List ℤ :=
  let windowStart : ℤ := now - (cfg.windowMs : ℤ)
  let purged := entries.filter (fun t => decide (windowStart < t))
  let entries' := purged ++ [now]
  let count := entries'.countP (fun t => decide (windowStart ≤ t ∧ t ≤ now))
  (decide (count ≤ cfg.maxRequests), entries')

/-- `SlidingWindowRateLimiter.isAllowed` including its `catch` branch: the
pipeline either yields the `zcount` reply or fails; on failure the limiter
fails open (`return true`). -/
def isAllowed (cfg : RateLimitConfig) (pipelineResult : Except Unit ℕ) : Bool :=
  match pipelineResult with
  | .ok count => decide (count ≤ cfg.maxRequests)
  | .error _ => true

end SlidingWindowRateLimiter

/-- Modelled from the claim's wording, for comparison with the source
definition only: "purges entries older than now−W" (strictly older, so an
entry at exactly `now−W` survives) and "counts entries in [now−W, now]". -/
def spec_slidingCheck (cfg : RateLimitConfig) (entries : List ℤ) (now : ℤ) :
    Bool × List ℤ :=
  let windowStart : ℤ := now - (cfg.windowMs : ℤ)
  let purged := entries.filter (fun t => decide (windowStart ≤ t))
  let entries' := purged ++ [now]
  let count := entries'.countP (fun t => decide (windowStart ≤ t ∧ t ≤ now))
  (decide (count ≤ cfg.maxRequests), entries')

/-- Counterexample for C4: with window 100 ms, ceiling 1, one prior entry
at exactly `now − W` (timestamp 0, now = 100), the code's inclusive purge
drops the boundary entry and admits the request, while the claim's
"purge strictly older, count [now−W, now]" reading counts it and rejects. -/
theorem slidingWindow_boundary_entry_divergence :
    (SlidingWindowRateLimiter.isAllowedCore ⟨100, 1, "sliding", false, false⟩
        [0] 100).1 = true ∧
    (spec_slidingCheck ⟨100, 1, "sliding", false, false⟩ [0] 100).1 = false := by
  constructor
  · rfl
  · rfl

/-- C4 as amended.  The pipeline atomically purges entries at or before
`now − W` (inclusive), inserts a uniquely-tagged entry for the current
request, counts the surviving entries in the window including the new one,
and admits iff the count is at most the ceiling.  Consequently: (a) a
request arriving while at least `ceiling` prior entries sit strictly inside
its window is rejected; (b) a request arriving `windowMs` or more after
every prior entry is accepted (for a positive ceiling), all prior entries
having been purged. -/
theorem slidingWindow_reject_inside_accept_after (cfg : RateLimitConfig)
    (entries : List ℤ) (now : ℤ) :
    (cfg.maxRequests ≤ entries.length →
      (∀ t ∈ entries, now - (cfg.windowMs : ℤ) < t ∧ t ≤ now) →
      (SlidingWindowRateLimiter.isAllowedCore cfg entries now).1 = false) ∧
    (1 ≤ cfg.maxRequests →
      (∀ t ∈ entries, t ≤ now - (cfg.windowMs : ℤ)) →
      (SlidingWindowRateLimiter.isAllowedCore cfg entries now).1 = true) := by
  have hW0 : (0 : ℤ) ≤ (cfg.windowMs : ℤ) := Int.natCast_nonneg _
  constructor
  · intro hlen hin
    have hkeep : entries.filter
        (fun t => decide (now - (cfg.windowMs : ℤ) < t)) = entries :=
      List.filter_eq_self.mpr (fun t ht => by
        simpa using (hin t ht).1)
    have hall : ∀ t ∈ entries,
        (fun t => decide (now - (cfg.windowMs : ℤ) ≤ t ∧ t ≤ now)) t = true := by
      intro t ht
      have h := hin t ht
      simp only [decide_eq_true_eq]
      exact ⟨le_of_lt h.1, h.2⟩
    have hcount : (entries ++ [now]).countP
        (fun t => decide (now - (cfg.windowMs : ℤ) ≤ t ∧ t ≤ now)) =
        entries.length + 1 := by
      rw [List.countP_append, List.countP_eq_length.mpr hall]
      simp [List.countP_cons]
    simp only [SlidingWindowRateLimiter.isAllowedCore, hkeep, hcount]
    exact decide_eq_false (by omega)
  · intro hC hold
    have hkeep : entries.filter
        (fun t => decide (now - (cfg.windowMs : ℤ) < t)) = [] := by
      rw [List.filter_eq_nil_iff]
      intro t ht
      simpa using not_lt.mpr (hold t ht)
    have hcount : (([] : List ℤ) ++ [now]).countP
        (fun t => decide (now - (cfg.windowMs : ℤ) ≤ t ∧ t ≤ now)) = 1 := by
      simp [List.countP_cons]
    simp only [SlidingWindowRateLimiter.isAllowedCore, hkeep, hcount]
    exact decide_eq_true (by omega)

/-- Witness for C4 (amended): window 100 ms, ceiling 2; a third request at
t = 100 with prior entries at 50 and 60 is rejected; a request at t = 160
(100 ms after the latest prior entry) is accepted. -/
theorem slidingWindow_reject_inside_accept_after_witness :
    (SlidingWindowRateLimiter.isAllowedCore ⟨100, 2, "sliding", false, false⟩
        [50, 60] 100).1 = false ∧
    (SlidingWindowRateLimiter.isAllowedCore ⟨100, 2, "sliding", false, false⟩
        [50, 60] 160).1 = true :=
  ⟨(slidingWindow_reject_inside_accept_after ⟨100, 2, "sliding", false, false⟩
      [50, 60] 100).1 (by decide) (by decide),
   (slidingWindow_reject_inside_accept_after ⟨100, 2, "sliding", false, false⟩
      [50, 60] 160).2 (by decide) (by decide)⟩

/-- C5.  Fail-open: when the store round trip fails, every limiter's check
returns a normal decision with `allowed = true` — never an error value —
with the fixed-window limiter reporting `remaining = maxRequests` and the
throttler reporting `tokensRemaining = burstLimit`; the sliding-window
limiter simply returns `true`. -/
theorem failOpen_on_store_error (cfg : RateLimitConfig) (tcfg : ThrottleConfig)
    (now : ℕ) (cost : ℚ) (e1 e2 e3 : Unit) :
    RateLimiter.isAllowedWithStore cfg now (.error e1) =
      ⟨true, (cfg.maxRequests : ℤ), ((now : ℤ) + (cfg.windowMs : ℤ)), none⟩ ∧
    DistributedThrottler.isAllowed tcfg cost (.error e2) =
      ⟨true, tcfg.burstLimit, none⟩ ∧
    SlidingWindowRateLimiter.isAllowed cfg (.error e3) = true :=
  ⟨rfl, rfl, rfl⟩

namespace RateLimiter

/-- The refund condition of `RateLimiter.middleware` (performanceOptimizer.ts
lines 626–628): refund iff (status < 400 and successes are skipped) or
(status ≥ 400 and failures are skipped). -/
def shouldRefund (cfg : RateLimitConfig) (statusCode : ℕ) : Bool :=
  (decide (statusCode < 400) && cfg.skipSuccessfulRequests) ||
  (decide (400 ≤ statusCode) && cfg.skipFailedRequests)

/-- The refund effect (line 632): `decrby` on the counter of the window
containing `Date.now()` **at outcome time**, by the request's weight. -/
def refund (cfg : RateLimitConfig) (store : WindowStore) (nowAtOutcome : ℕ)
    (weight : ℤ) : WindowStore :=
  let window : ℕ := nowAtOutcome / cfg.windowMs
  fun i => if i = window then store i - weight else store i

end RateLimiter

/-- Counterexample for C8: policy `{windowMs: 60000, maxRequests: 5,
skipSuccessfulRequests: true}`.  A weight-1 request admitted at t = 1000
(window 0) whose successful outcome lands at t = 60000 (window 1) triggers a
refund that decrements window 1's counter to −1 — not a silent no-op
leaving every window counter unchanged. -/
theorem fixedWindow_refund_after_expiry_not_noop :
    RateLimiter.shouldRefund ⟨60000, 5, "auth", true, false⟩ 200 = true ∧
    60000 / (60000 : ℕ) ≠ 1000 / (60000 : ℕ) ∧
    (RateLimiter.refund ⟨60000, 5, "auth", true, false⟩
        (RateLimiter.isAllowed ⟨60000, 5, "auth", true, false⟩
          WindowStore.empty 1000 1).2 60000 1) 1 ≠
      (RateLimiter.isAllowed ⟨60000, 5, "auth", true, false⟩
        WindowStore.empty 1000 1).2 1 := by
  refine ⟨rfl, by decide, ?_⟩
  decide

/-- C8 as amended.  The refund fires exactly under the configured
success/failure toggles and decrements by `weight` the counter of the
window current at outcome time — the admission window when the outcome
arrives in the same window, but a *later* window (left under-counted, and
possibly driven negative) when the admission window has expired; no other
window counter changes. -/
theorem fixedWindow_refund_targets_current_window (cfg : RateLimitConfig)
    (store : WindowStore) (nowAtOutcome : ℕ) (weight : ℤ) (statusCode : ℕ) :
    (RateLimiter.shouldRefund cfg statusCode = true ↔
      ((statusCode < 400 ∧ cfg.skipSuccessfulRequests = true) ∨
       (400 ≤ statusCode ∧ cfg.skipFailedRequests = true))) ∧
    (RateLimiter.refund cfg store nowAtOutcome weight)
        (nowAtOutcome / cfg.windowMs) =
      store (nowAtOutcome / cfg.windowMs) - weight ∧
    (∀ i, i ≠ nowAtOutcome / cfg.windowMs →
      (RateLimiter.refund cfg store nowAtOutcome weight) i = store i) := by
  refine ⟨?_, ?_, ?_⟩
  · simp [RateLimiter.shouldRefund]
  · simp [RateLimiter.refund]
  · intro i hi
    simp [RateLimiter.refund, hi]

/-- Witness for C8 (amended): outcome at t = 60000 under a 60 s window —
window 1's counter drops by the weight, window 0's counter is untouched. -/
theorem fixedWindow_refund_targets_current_window_witness :
    (RateLimiter.refund ⟨60000, 5, "auth", true, false⟩
        (fun i => if i = 0 then 1 else 0) 60000 1) (60000 / 60000) =
      (fun i => if i = (0 : ℕ) then (1 : ℤ) else 0) (60000 / 60000) - 1 ∧
    (RateLimiter.refund ⟨60000, 5, "auth", true, false⟩
        (fun i => if i = 0 then 1 else 0) 60000 1) 0 =
      (fun i => if i = (0 : ℕ) then (1 : ℤ) else 0) 0 :=
  ⟨(fixedWindow_refund_targets_current_window ⟨60000, 5, "auth", true, false⟩
      (fun i => if i = 0 then 1 else 0) 60000 1 200).2.1,
   (fixedWindow_refund_targets_current_window ⟨60000, 5, "auth", true, false⟩
      (fun i => if i = 0 then 1 else 0) 60000 1 200).2.2 0 (by decide)⟩

/-- The caller-supplied part of `RateLimitConfig`: `windowMs` and
`maxRequests` are mandatory (any number, ℤ here), the rest optional. -/
structure RateLimitConfigInput where
  windowMs : ℤ
  maxRequests : ℤ
  keyPrefix : Option String
  skipSuccessfulRequests : Option Bool
  skipFailedRequests : Option Bool
deriving Repr, DecidableEq

/-- The configuration held by a constructed `RateLimiter`. -/
structure ConstructedRateLimitConfig where
  windowMs : ℤ
  maxRequests : ℤ
  keyPrefix : String
  skipSuccessfulRequests : Bool
  skipFailedRequests : Bool
deriving Repr, DecidableEq

/-- The `RateLimiter` constructor (performanceOptimizer.ts lines 539–549):
spread the defaults, then spread the caller's config over them.  There is
no validation and no failure path. -/
def RateLimiter.construct (c : RateLimitConfigInput) : ConstructedRateLimitConfig :=
  ⟨c.windowMs, c.maxRequests, c.keyPrefix.getD "rate-limit",
   c.skipSuccessfulRequests.getD false, c.skipFailedRequests.getD false⟩

/-- The `DistributedThrottler` constructor (lines 701–706): defaults plus
the caller's config; no validation and no failure path. -/
def DistributedThrottler.construct (burstLimit sustainedLimit windowMs : ℚ)
    (keyPrefix : Option String) : ThrottleConfig :=
  ⟨burstLimit, sustainedLimit, windowMs, keyPrefix.getD "throttle"⟩

/-- Modelled from the spec's wording ("zero/negative window or ceiling"):
the well-formedness condition PolicyMisconfiguration is about. -/
def spec_policyValid (windowMs maxRequests : ℤ) : Prop :=
  0 < windowMs ∧ 0 < maxRequests

/-- Counterexample for C9: a config with `windowMs = 0` and
`maxRequests = -1` violates the spec's validity condition, yet both
constructors succeed and return fully-formed limiter configurations
retaining the invalid values — construction never fails. -/
theorem limiter_construction_never_fails :
    ¬ spec_policyValid 0 (-1) ∧
    RateLimiter.construct ⟨0, -1, none, none, none⟩ =
      ⟨0, -1, "rate-limit", false, false⟩ ∧
    DistributedThrottler.construct 0 (-1) 0 none = ⟨0, -1, 0, "throttle"⟩ :=
  ⟨fun h => absurd h.1 (by norm_num), rfl, rfl⟩

/-- C9 as amended.  The constructors perform no validation at all: every
configuration — zero or negative window length and ceiling included — is
accepted as-is, with only the optional fields defaulted; misconfiguration
is therefore not detected at construction time. -/
theorem limiter_constructors_accept_any_config (w m : ℤ)
    (kp : Option String) (ss sf : Option Bool) (b s wq : ℚ)
    (kp' : Option String) :
    RateLimiter.construct ⟨w, m, kp, ss, sf⟩ =
      ⟨w, m, kp.getD "rate-limit", ss.getD false, sf.getD false⟩ ∧
    DistributedThrottler.construct b s wq kp' =
      ⟨b, s, wq, kp'.getD "throttle"⟩ :=
  ⟨rfl, rfl⟩

/-- The per-key rolling accounting record (interface `PerformanceMetric`). -/
structure PerformanceMetric where
  total : ℕ
  errors : ℕ
  totalResponseTime : ℚ
  lastUpdate : ℤ
deriving Repr, DecidableEq

/-- The `AdaptiveRateLimiter`'s metric map: key ↦ recorded profile. -/
def MetricsMap : Type := String → Option PerformanceMetric

namespace AdaptiveRateLimiter

/-- `AdaptiveRateLimiter.getDynamicLimit` (performanceOptimizer.ts
lines 840–866): with no recorded profile, the base ceiling; otherwise
`errorRate = errors / total`, `avgResponseTime = totalResponseTime / total`,
reduce `limit` to `floor(limit·0.5)` when `errorRate > 0.1`, else to
`floor(limit·0.75)` when `errorRate > 0.05`, then raise the current value
to `floor(limit·1.5)` when `errorRate < 0.01` and `avgResponseTime < 100`.
No clamping is applied. -/
def getDynamicLimit (cfg : RateLimitConfig) (metrics : Option PerformanceMetric) : ℤ :=
  match metrics with
  | none => (cfg.maxRequests : ℤ)
  | some m =>
      let errorRate : ℚ := (m.errors : ℚ) / (m.total : ℚ)
      let avgResponseTime : ℚ := m.totalResponseTime / (m.total : ℚ)
      let limit1 : ℤ :=
        if errorRate > 1/10 then ⌊((cfg.maxRequests : ℤ) : ℚ) * (1/2)⌋
        else if errorRate > 1/20 then ⌊((cfg.maxRequests : ℤ) : ℚ) * (3/4)⌋
        else (cfg.maxRequests : ℤ)
      if errorRate < 1/100 ∧ avgResponseTime < 100 then ⌊(limit1 : ℚ) * (3/2)⌋
      else limit1

/-- `AdaptiveRateLimiter.recordMetric` (lines 898–915): create the key's
profile if absent (with `lastUpdate = now`), then bump `total`, add the
response time, bump `errors` when the status is ≥ 400, and stamp
`lastUpdate = now`. -/
def recordMetric (metrics : MetricsMap) (key : String) (responseTime : ℚ)
    (statusCode : ℕ) (now : ℤ) : MetricsMap :=
  fun k =>
    if k = key then
      let m := (metrics key).getD ⟨0, 0, 0, now⟩
      some ⟨m.total + 1,
        if 400 ≤ statusCode then m.errors + 1 else m.errors,
        m.totalResponseTime + responseTime, now⟩
    else metrics k

/-- The eviction sweep of `startMetricsCollection` (lines 886–896):
profiles whose `lastUpdate` lies more than 3600000 ms before `now` are
deleted. -/
def cleanOldMetrics (now : ℤ) (metrics : MetricsMap) : MetricsMap :=
  fun k =>
    match metrics k with
    | some m => if 3600000 < now - m.lastUpdate then none else some m
    | none => none

end AdaptiveRateLimiter

/-- A recorded profile always has `total ≥ 1`: `recordMetric` is the only
writer and it increments `total` on a profile it just created if needed. -/
theorem AdaptiveRateLimiter.recordMetric_total_pos (metrics : MetricsMap)
    (key k : String) (responseTime : ℚ) (statusCode : ℕ) (now : ℤ)
    (m : PerformanceMetric)
    (h : AdaptiveRateLimiter.recordMetric metrics key responseTime statusCode now k
        = some m) :
    (∀ m', metrics k = some m' → 1 ≤ m'.total) → 1 ≤ m.total := by
  intro hprev
  by_cases hk : k = key
  · subst hk
    simp only [AdaptiveRateLimiter.recordMetric, if_pos rfl] at h
    cases h
    exact Nat.le_add_left 1 _
  · simp only [AdaptiveRateLimiter.recordMetric, if_neg hk] at h
    exact hprev m h

/-- Modelled from the claim's wording, for comparison with the source
definition only: the base ceiling multiplied exactly by the branch factor
(error-rate > 10% → ×0.5; (5%,10%] → ×0.75; < 1% with avg latency
< 100 ms → ×1.5; otherwise unchanged). -/
def spec_adaptiveTransform (base : ℚ) (m : PerformanceMetric) : ℚ :=
  let errorRate : ℚ := (m.errors : ℚ) / (m.total : ℚ)
  let avg : ℚ := m.totalResponseTime / (m.total : ℚ)
  if errorRate > 1/10 then base * (1/2)
  else if errorRate > 1/20 then base * (3/4)
  else if errorRate < 1/100 ∧ avg < 100 then base * (3/2)
  else base

/-- Modelled from the claim's wording: clamp to a configured [min, max]. -/
def spec_clamp (mn mx x : ℚ) : ℚ := max mn (min mx x)

/-- Counterexample for C6: no choice of configured clamp bounds [min, max]
reconciles the claimed "transform then clamp" ceiling with the code.  With
base 5, a 20%-error profile yields transform 5/2 but code value 2
(`Math.floor`), while a clean-but-slow profile yields transform 5 and code
value 5 — and no single clamp maps 5/2 to 2 while fixing 5. -/
theorem adaptive_ceiling_clamp_refuted :
    ¬ ∃ mn mx : ℚ,
      spec_clamp mn mx (spec_adaptiveTransform 5 ⟨10, 2, 0, 0⟩) =
        ((AdaptiveRateLimiter.getDynamicLimit ⟨60000, 5, "rate-limit", false, false⟩
          (some ⟨10, 2, 0, 0⟩) : ℤ) : ℚ) ∧
      spec_clamp mn mx (spec_adaptiveTransform 5 ⟨10, 0, 2000, 0⟩) =
        ((AdaptiveRateLimiter.getDynamicLimit ⟨60000, 5, "rate-limit", false, false⟩
          (some ⟨10, 0, 2000, 0⟩) : ℤ) : ℚ) := by
  have hA : AdaptiveRateLimiter.getDynamicLimit ⟨60000, 5, "rate-limit", false, false⟩
      (some ⟨10, 2, 0, 0⟩) = 2 := by
    norm_num [AdaptiveRateLimiter.getDynamicLimit]
  have hB : AdaptiveRateLimiter.getDynamicLimit ⟨60000, 5, "rate-limit", false, false⟩
      (some ⟨10, 0, 2000, 0⟩) = 5 := by
    norm_num [AdaptiveRateLimiter.getDynamicLimit]
  have tA : spec_adaptiveTransform 5 ⟨10, 2, 0, 0⟩ = 5/2 := by
    norm_num [spec_adaptiveTransform]
  have tB : spec_adaptiveTransform 5 ⟨10, 0, 2000, 0⟩ = 5 := by
    norm_num [spec_adaptiveTransform]
  rintro ⟨mn, mx, h1, h2⟩
  rw [hA, tA] at h1
  rw [hB, tB] at h2
  push_cast at h1 h2
  unfold spec_clamp at h1 h2
  rcases le_total mx (5/2 : ℚ) with h | h
  · rw [min_eq_left h] at h1
    rw [min_eq_left (le_trans h (by norm_num))] at h2
    rw [h1] at h2
    norm_num at h2
  · rw [min_eq_right h] at h1
    have hmax : (5/2 : ℚ) ≤ max mn (5/2 : ℚ) := le_max_right _ _
    rw [h1] at hmax
    norm_num at hmax

/-- The claim C6 as amended: each multiplicative branch is floored
(`Math.floor`), the branches are mutually exclusive, and there is no
[min, max] clamping step. -/
def amended_dynamicCeiling (cfg : RateLimitConfig) (m : PerformanceMetric) : ℤ :=
  let errorRate : ℚ := (m.errors : ℚ) / (m.total : ℚ)
  let avg : ℚ := m.totalResponseTime / (m.total : ℚ)
  if errorRate > 1/10 then ⌊((cfg.maxRequests : ℤ) : ℚ) * (1/2)⌋
  else if errorRate > 1/20 then ⌊((cfg.maxRequests : ℤ) : ℚ) * (3/4)⌋
  else if errorRate < 1/100 ∧ avg < 100 then ⌊((cfg.maxRequests : ℤ) : ℚ) * (3/2)⌋
  else (cfg.maxRequests : ℤ)

/-- C6 as amended.  For any recorded profile the dynamic ceiling equals the
floored, unclamped branch formula; in particular a key with error rate
above 10% has its ceiling reduced to at most 50% of the base. -/
theorem adaptive_dynamic_ceiling_formula (cfg : RateLimitConfig)
    (m : PerformanceMetric) :
    AdaptiveRateLimiter.getDynamicLimit cfg (some m) =
      amended_dynamicCeiling cfg m ∧
    ((m.errors : ℚ) / (m.total : ℚ) > 1/10 →
      2 * AdaptiveRateLimiter.getDynamicLimit cfg (some m) ≤ (cfg.maxRequests : ℤ)) := by
  have hval : ∀ h1 : (m.errors : ℚ) / (m.total : ℚ) > 1/10,
      AdaptiveRateLimiter.getDynamicLimit cfg (some m) =
        ⌊((cfg.maxRequests : ℤ) : ℚ) * (1/2)⌋ := by
    intro h1
    have h3 : ¬ ((m.errors : ℚ) / (m.total : ℚ) < 1/100 ∧
        m.totalResponseTime / (m.total : ℚ) < 100) := fun hc => by
      have := hc.1; linarith
    simp only [AdaptiveRateLimiter.getDynamicLimit]
    rw [if_pos h1, if_neg h3]
  constructor
  · by_cases h1 : (m.errors : ℚ) / (m.total : ℚ) > 1/10
    · have h3 : ¬ ((m.errors : ℚ) / (m.total : ℚ) < 1/100 ∧
          m.totalResponseTime / (m.total : ℚ) < 100) := fun hc => by
        have := hc.1; linarith
      rw [hval h1]
      simp only [amended_dynamicCeiling]
      rw [if_pos h1]
    · by_cases h2 : (m.errors : ℚ) / (m.total : ℚ) > 1/20
      · have h3 : ¬ ((m.errors : ℚ) / (m.total : ℚ) < 1/100 ∧
            m.totalResponseTime / (m.total : ℚ) < 100) := fun hc => by
          have := hc.1; linarith
        simp only [AdaptiveRateLimiter.getDynamicLimit, amended_dynamicCeiling]
        rw [if_neg h1, if_neg h1, if_pos h2, if_pos h2, if_neg h3]
      · by_cases h3 : (m.errors : ℚ) / (m.total : ℚ) < 1/100 ∧
            m.totalResponseTime / (m.total : ℚ) < 100
        · simp only [AdaptiveRateLimiter.getDynamicLimit, amended_dynamicCeiling]
          rw [if_neg h1, if_neg h1, if_neg h2, if_neg h2, if_pos h3]
        · simp only [AdaptiveRateLimiter.getDynamicLimit, amended_dynamicCeiling]
          rw [if_neg h1, if_neg h1, if_neg h2, if_neg h2, if_neg h3]
  · intro h1
    rw [hval h1]
    have hfl : (↑⌊((cfg.maxRequests : ℤ) : ℚ) * (1/2)⌋ : ℚ) ≤
        ((cfg.maxRequests : ℤ) : ℚ) * (1/2) := Int.floor_le _
    have : (2 : ℚ) * (↑⌊((cfg.maxRequests : ℤ) : ℚ) * (1/2)⌋ : ℚ) ≤
        ((cfg.maxRequests : ℤ) : ℚ) := by linarith
    exact_mod_cast this

/-- Witness for C6 (amended) at base 5 with a 20%-error profile: the code's
ceiling is the floored formula value and is at most half the base. -/
theorem adaptive_dynamic_ceiling_formula_witness :
    AdaptiveRateLimiter.getDynamicLimit ⟨60000, 5, "rate-limit", false, false⟩
        (some ⟨10, 2, 0, 0⟩) =
      amended_dynamicCeiling ⟨60000, 5, "rate-limit", false, false⟩ ⟨10, 2, 0, 0⟩ ∧
    2 * AdaptiveRateLimiter.getDynamicLimit ⟨60000, 5, "rate-limit", false, false⟩
        (some ⟨10, 2, 0, 0⟩) ≤ (5 : ℤ) :=
  ⟨(adaptive_dynamic_ceiling_formula ⟨60000, 5, "rate-limit", false, false⟩
      ⟨10, 2, 0, 0⟩).1,
   (adaptive_dynamic_ceiling_formula ⟨60000, 5, "rate-limit", false, false⟩
      ⟨10, 2, 0, 0⟩).2 (by norm_num)⟩

/-- C10.  A key with no recorded profile gets exactly the base ceiling; and
a profile idle for more than one hour (3600000 ms) is removed by the
eviction sweep, after which the key again gets exactly the base ceiling. -/
theorem adaptive_no_metrics_gives_base (cfg : RateLimitConfig)
    (metrics : MetricsMap) (key : String) (m : PerformanceMetric) (now : ℤ) :
    (metrics key = none →
      AdaptiveRateLimiter.getDynamicLimit cfg (metrics key) =
        (cfg.maxRequests : ℤ)) ∧
    (metrics key = some m → 3600000 < now - m.lastUpdate →
      AdaptiveRateLimiter.cleanOldMetrics now metrics key = none ∧
      AdaptiveRateLimiter.getDynamicLimit cfg
          (AdaptiveRateLimiter.cleanOldMetrics now metrics key) =
        (cfg.maxRequests : ℤ)) := by
  constructor
  · intro h
    rw [h]
    rfl
  · intro h hold
    have hclean : AdaptiveRateLimiter.cleanOldMetrics now metrics key = none := by
      simp only [AdaptiveRateLimiter.cleanOldMetrics, h]
      rw [if_pos hold]
    exact ⟨hclean, by rw [hclean]; rfl⟩

/-- Witness for C10: a fresh key, and a key whose only profile is one hour
and one second stale at t = 4000000, both yield the base ceiling 5. -/
theorem adaptive_no_metrics_gives_base_witness :
    AdaptiveRateLimiter.getDynamicLimit ⟨60000, 5, "rate-limit", false, false⟩
        ((fun k => if k = "k" then some ⟨1, 0, 0, 0⟩ else none : MetricsMap) "other") =
      ((5 : ℕ) : ℤ) ∧
    AdaptiveRateLimiter.cleanOldMetrics 4000000
        (fun k => if k = "k" then some ⟨1, 0, 0, 0⟩ else none) "k" = none ∧
    AdaptiveRateLimiter.getDynamicLimit ⟨60000, 5, "rate-limit", false, false⟩
        (AdaptiveRateLimiter.cleanOldMetrics 4000000
          (fun k => if k = "k" then some ⟨1, 0, 0, 0⟩ else none) "k") =
      ((5 : ℕ) : ℤ) :=
  ⟨(adaptive_no_metrics_gives_base ⟨60000, 5, "rate-limit", false, false⟩
      (fun k => if k = "k" then some ⟨1, 0, 0, 0⟩ else none) "other" ⟨1, 0, 0, 0⟩
      4000000).1 (by decide),
   (adaptive_no_metrics_gives_base ⟨60000, 5, "rate-limit", false, false⟩
      (fun k => if k = "k" then some ⟨1, 0, 0, 0⟩ else none) "k" ⟨1, 0, 0, 0⟩
      4000000).2 (by decide) (by decide)⟩
